import Mathlib

/-!
Verification of the omnect-ui device-operation and network-reconfiguration
frontend logic.  The definitions below are a shallow embedding of the
TypeScript/Vue sources: the timer manager (`useCore/timers.ts`), the network
settings component (`NetworkSettings.vue`, both the legacy and the
Core-backed variant), the application shell (`App.vue`), and the device
actions component (`DeviceActions.vue`).  Types owned by the Crux core
(which lives outside the frontend sources) are modelled from the design
document and are marked as such in their doc comments.
-/

namespace OmnectUI

/-! ## Timer manager (timers module)

The timer module keeps four module-level timer ids (reconnection interval,
reconnection timeout, new-IP interval, new-IP timeout).  We embed the host
timer API as an explicit state: every `setInterval`/`setTimeout` call
allocates a fresh id and records a registration; `clearInterval`/
`clearTimeout` removes the registration with that id. -/

/-- The role a timer registration plays in the timer module; this records
which of the four start sites created the registration. -/
inductive TimerRole where
  | reconnInterval
  | reconnTimeout
  | newIpInterval
  | newIpTimeout
deriving DecidableEq, Repr

/-- A live registration with the host clock service: its id, the start site
that created it, the period/delay in milliseconds, and whether it repeats. -/
structure TimerReg where
  id : Nat
  role : TimerRole
  delayMs : Nat
  isInterval : Bool
deriving DecidableEq, Repr

/-- The mutable module state of the timer manager: the four stored timer ids
(`null` is `none`), the registrations currently live with the host, and the
next fresh id the host will hand out. -/
structure TimerState where
  reconnectionIntervalId : Option Nat
  reconnectionTimeoutId : Option Nat
  newIpIntervalId : Option Nat
  newIpTimeoutId : Option Nat
  active : List TimerReg
  nextId : Nat
deriving DecidableEq, Repr

/-- The initial timer state: all ids null and nothing registered. -/
def initTimerState : TimerState :=
  { reconnectionIntervalId := none
    reconnectionTimeoutId := none
    newIpIntervalId := none
    newIpTimeoutId := none
    active := []
    nextId := 0 }

/-- Host `setInterval`/`setTimeout`: allocate a fresh id and register. -/
def scheduleTimer (role : TimerRole) (delayMs : Nat) (isInterval : Bool)
    (s : TimerState) : Nat × TimerState :=
  (s.nextId,
   { s with
       active := { id := s.nextId, role := role, delayMs := delayMs,
                   isInterval := isInterval } :: s.active
       nextId := s.nextId + 1 })

/-- Host `clearInterval`/`clearTimeout`: drop the registration with this id. -/
def clearTimer (i : Nat) (s : TimerState) : TimerState :=
  { s with active := s.active.filter (fun r => r.id ≠ i) }

/-- `RECONNECTION_POLL_INTERVAL_MS` from the timer module. -/
def RECONNECTION_POLL_INTERVAL_MS : Nat := 5000

/-- `REBOOT_TIMEOUT_MS` from the timer module. -/
def REBOOT_TIMEOUT_MS : Nat := 300000

/-- `FACTORY_RESET_TIMEOUT_MS` from the timer module. -/
def FACTORY_RESET_TIMEOUT_MS : Nat := 600000

/-- `NEW_IP_POLL_INTERVAL_MS` from the timer module. -/
def NEW_IP_POLL_INTERVAL_MS : Nat := 5000

/-- `NEW_IP_TIMEOUT_MS` from the timer module. -/
def NEW_IP_TIMEOUT_MS : Nat := 90000

/-- The stored id field for a given role. -/
def roleId (s : TimerState) : TimerRole → Option Nat
  | .reconnInterval => s.reconnectionIntervalId
  | .reconnTimeout => s.reconnectionTimeoutId
  | .newIpInterval => s.newIpIntervalId
  | .newIpTimeout => s.newIpTimeoutId

/-- Overwrite the stored id field for a given role. -/
def setRoleId (r : TimerRole) (v : Option Nat) (s : TimerState) : TimerState :=
  match r with
  | .reconnInterval => { s with reconnectionIntervalId := v }
  | .reconnTimeout => { s with reconnectionTimeoutId := v }
  | .newIpInterval => { s with newIpIntervalId := v }
  | .newIpTimeout => { s with newIpTimeoutId := v }

/-- One `if (id !== null) { clearTimer(id); id = null }` block from the stop
functions, for the given stored id. -/
def clearRole (r : TimerRole) (s : TimerState) : TimerState :=
  match roleId s r with
  | some i => setRoleId r none (clearTimer i s)
  | none => s

/-- `stopReconnectionPolling`: clear each of the two reconnection timers if
its stored id is non-null and reset the id to null. -/
def stopReconnectionPolling (s : TimerState) : TimerState :=
  clearRole .reconnTimeout (clearRole .reconnInterval s)

/-- `stopNewIpPolling`: clear each of the two new-IP timers if its stored id
is non-null and reset the id to null. -/
def stopNewIpPolling (s : TimerState) : TimerState :=
  clearRole .newIpTimeout (clearRole .newIpInterval s)

theorem roleId_setRoleId_self (r : TimerRole) (v : Option Nat) (s : TimerState) :
    roleId (setRoleId r v s) r = v := by
  cases r <;> rfl

theorem roleId_setRoleId_other (r r' : TimerRole) (h : r' ≠ r) (v : Option Nat)
    (s : TimerState) : roleId (setRoleId r v s) r' = roleId s r' := by
  cases r <;> cases r' <;> first | rfl | exact absurd rfl h

theorem roleId_clearTimer (i : Nat) (s : TimerState) (r : TimerRole) :
    roleId (clearTimer i s) r = roleId s r := by
  cases r <;> rfl

theorem roleId_clearRole_self (r : TimerRole) (s : TimerState) :
    roleId (clearRole r s) r = none := by
  unfold clearRole
  cases h : roleId s r with
  | none => exact h
  | some i => exact roleId_setRoleId_self r none _

theorem roleId_clearRole_other (r r' : TimerRole) (h : r' ≠ r) (s : TimerState) :
    roleId (clearRole r s) r' = roleId s r' := by
  unfold clearRole
  cases hr : roleId s r with
  | none => rfl
  | some i => rw [roleId_setRoleId_other r r' h, roleId_clearTimer]

theorem clearRole_of_none (r : TimerRole) (s : TimerState)
    (h : roleId s r = none) : clearRole r s = s := by
  unfold clearRole
  rw [h]

/-- `startReconnectionPolling(isFactoryReset)`: stop any existing timers,
then schedule the polling interval at `RECONNECTION_POLL_INTERVAL_MS` and the
one-shot timeout at the kind-specific deadline. -/
def startReconnectionPolling (isFactoryReset : Bool) (s0 : TimerState) : TimerState :=
  let s := stopReconnectionPolling s0
  let p := scheduleTimer .reconnInterval RECONNECTION_POLL_INTERVAL_MS true s
  let timeoutMs := if isFactoryReset then FACTORY_RESET_TIMEOUT_MS else REBOOT_TIMEOUT_MS
  let q := scheduleTimer .reconnTimeout timeoutMs false p.2
  { q.2 with reconnectionIntervalId := some p.1, reconnectionTimeoutId := some q.1 }

/-- `startNewIpPolling()`: stop any existing timers, then schedule the polling
interval at `NEW_IP_POLL_INTERVAL_MS` and the one-shot timeout at
`NEW_IP_TIMEOUT_MS`. -/
def startNewIpPolling (s0 : TimerState) : TimerState :=
  let s := stopNewIpPolling s0
  let p := scheduleTimer .newIpInterval NEW_IP_POLL_INTERVAL_MS true s
  let q := scheduleTimer .newIpTimeout NEW_IP_TIMEOUT_MS false p.2
  { q.2 with newIpIntervalId := some p.1, newIpTimeoutId := some q.1 }

/-! Basic facts about stop/start. -/

theorem stopReconnectionPolling_ids (s : TimerState) :
    (stopReconnectionPolling s).reconnectionIntervalId = none ∧
    (stopReconnectionPolling s).reconnectionTimeoutId = none := by
  constructor
  · have h := roleId_clearRole_other .reconnTimeout .reconnInterval (by decide)
      (clearRole .reconnInterval s)
    have h2 := roleId_clearRole_self .reconnInterval s
    exact h.trans h2
  · exact roleId_clearRole_self .reconnTimeout (clearRole .reconnInterval s)

theorem stopNewIpPolling_ids (s : TimerState) :
    (stopNewIpPolling s).newIpIntervalId = none ∧
    (stopNewIpPolling s).newIpTimeoutId = none := by
  constructor
  · have h := roleId_clearRole_other .newIpTimeout .newIpInterval (by decide)
      (clearRole .newIpInterval s)
    have h2 := roleId_clearRole_self .newIpInterval s
    exact h.trans h2
  · exact roleId_clearRole_self .newIpTimeout (clearRole .newIpInterval s)

theorem stopReconnectionPolling_of_none {s : TimerState}
    (h1 : s.reconnectionIntervalId = none) (h2 : s.reconnectionTimeoutId = none) :
    stopReconnectionPolling s = s := by
  have h1' : roleId s .reconnInterval = none := h1
  have h2' : roleId s .reconnTimeout = none := h2
  unfold stopReconnectionPolling
  rw [clearRole_of_none .reconnInterval s h1', clearRole_of_none .reconnTimeout s h2']

theorem stopNewIpPolling_of_none {s : TimerState}
    (h1 : s.newIpIntervalId = none) (h2 : s.newIpTimeoutId = none) :
    stopNewIpPolling s = s := by
  have h1' : roleId s .newIpInterval = none := h1
  have h2' : roleId s .newIpTimeout = none := h2
  unfold stopNewIpPolling
  rw [clearRole_of_none .newIpInterval s h1', clearRole_of_none .newIpTimeout s h2']

theorem stopReconnectionPolling_idem (s : TimerState) :
    stopReconnectionPolling (stopReconnectionPolling s) = stopReconnectionPolling s :=
  stopReconnectionPolling_of_none (stopReconnectionPolling_ids s).1
    (stopReconnectionPolling_ids s).2

theorem stopNewIpPolling_idem (s : TimerState) :
    stopNewIpPolling (stopNewIpPolling s) = stopNewIpPolling s :=
  stopNewIpPolling_of_none (stopNewIpPolling_ids s).1 (stopNewIpPolling_ids s).2

/-! ### Timer-state invariant

Well-formedness of the timer module state: registered ids are fresh-bounded
and duplicate-free, and every live registration is the one pointed to by the
stored id of its role.  This is what makes the four stored ids an exact
inventory of the live timers. -/

/-- Invariant of the timer module state. -/
def TimerInv (s : TimerState) : Prop :=
  (∀ reg ∈ s.active, reg.id < s.nextId) ∧
  (s.active.map TimerReg.id).Nodup ∧
  (∀ reg ∈ s.active, roleId s reg.role = some reg.id)

theorem setRoleId_active (r : TimerRole) (v : Option Nat) (s : TimerState) :
    (setRoleId r v s).active = s.active := by
  cases r <;> rfl

theorem setRoleId_nextId (r : TimerRole) (v : Option Nat) (s : TimerState) :
    (setRoleId r v s).nextId = s.nextId := by
  cases r <;> rfl

theorem timerInv_clearRole (r : TimerRole) (s : TimerState) (h : TimerInv s) :
    TimerInv (clearRole r s) := by
  obtain ⟨hlt, hnd, hrole⟩ := h
  unfold clearRole
  cases hr : roleId s r with
  | none => exact ⟨hlt, hnd, hrole⟩
  | some i =>
    have hact : (setRoleId r none (clearTimer i s)).active
        = s.active.filter (fun reg => reg.id ≠ i) := by
      rw [setRoleId_active]; rfl
    have hnext : (setRoleId r none (clearTimer i s)).nextId = s.nextId := by
      rw [setRoleId_nextId]; rfl
    refine ⟨?_, ?_, ?_⟩
    · intro reg hreg
      rw [hact] at hreg
      rw [hnext]
      exact hlt reg (List.mem_filter.mp hreg).1
    · rw [hact]
      exact List.Nodup.sublist ((List.filter_sublist _).map _) hnd
    · intro reg hreg
      rw [hact] at hreg
      obtain ⟨hmem, hpred⟩ := List.mem_filter.mp hreg
      have hne : reg.id ≠ i := by simpa using hpred
      by_cases hrr : reg.role = r
      · exfalso
        have h2 := hrole reg hmem
        rw [hrr, hr] at h2
        exact hne (Option.some.injEq .. ▸ h2).symm
      · rw [roleId_setRoleId_other r reg.role hrr, roleId_clearTimer]
        exact hrole reg hmem

theorem startReconnectionPolling_eq (b : Bool) (s : TimerState) :
    startReconnectionPolling b s =
      { reconnectionIntervalId := some (stopReconnectionPolling s).nextId
        reconnectionTimeoutId := some ((stopReconnectionPolling s).nextId + 1)
        newIpIntervalId := (stopReconnectionPolling s).newIpIntervalId
        newIpTimeoutId := (stopReconnectionPolling s).newIpTimeoutId
        active :=
          ⟨(stopReconnectionPolling s).nextId + 1, .reconnTimeout,
            if b then FACTORY_RESET_TIMEOUT_MS else REBOOT_TIMEOUT_MS, false⟩ ::
          ⟨(stopReconnectionPolling s).nextId, .reconnInterval,
            RECONNECTION_POLL_INTERVAL_MS, true⟩ :: (stopReconnectionPolling s).active
        nextId := (stopReconnectionPolling s).nextId + 1 + 1 } := rfl

theorem startNewIpPolling_eq (s : TimerState) :
    startNewIpPolling s =
      { reconnectionIntervalId := (stopNewIpPolling s).reconnectionIntervalId
        reconnectionTimeoutId := (stopNewIpPolling s).reconnectionTimeoutId
        newIpIntervalId := some (stopNewIpPolling s).nextId
        newIpTimeoutId := some ((stopNewIpPolling s).nextId + 1)
        active :=
          ⟨(stopNewIpPolling s).nextId + 1, .newIpTimeout, NEW_IP_TIMEOUT_MS, false⟩ ::
          ⟨(stopNewIpPolling s).nextId, .newIpInterval,
            NEW_IP_POLL_INTERVAL_MS, true⟩ :: (stopNewIpPolling s).active
        nextId := (stopNewIpPolling s).nextId + 1 + 1 } := rfl

theorem timerInv_stopReconnectionPolling (s : TimerState) (h : TimerInv s) :
    TimerInv (stopReconnectionPolling s) :=
  timerInv_clearRole _ _ (timerInv_clearRole _ _ h)

theorem timerInv_stopNewIpPolling (s : TimerState) (h : TimerInv s) :
    TimerInv (stopNewIpPolling s) :=
  timerInv_clearRole _ _ (timerInv_clearRole _ _ h)

theorem timerInv_startReconnectionPolling (b : Bool) (s : TimerState)
    (h : TimerInv s) : TimerInv (startReconnectionPolling b s) := by
  obtain ⟨hlt, hnd, hrole⟩ := timerInv_stopReconnectionPolling s h
  have hInt : roleId (stopReconnectionPolling s) .reconnInterval = none :=
    (stopReconnectionPolling_ids s).1
  have hTO : roleId (stopReconnectionPolling s) .reconnTimeout = none :=
    (stopReconnectionPolling_ids s).2
  rw [startReconnectionPolling_eq]
  refine ⟨?_, ?_, ?_⟩
  · intro reg hreg
    simp only [List.mem_cons] at hreg
    rcases hreg with rfl | rfl | hreg
    · show (stopReconnectionPolling s).nextId + 1
        < (stopReconnectionPolling s).nextId + 1 + 1
      omega
    · show (stopReconnectionPolling s).nextId
        < (stopReconnectionPolling s).nextId + 1 + 1
      omega
    · have := hlt reg hreg
      show reg.id < (stopReconnectionPolling s).nextId + 1 + 1
      omega
  · refine List.nodup_cons.mpr ⟨?_, List.nodup_cons.mpr ⟨?_, hnd⟩⟩
    · intro hmem
      simp only [List.map_cons, List.mem_cons, List.mem_map] at hmem
      rcases hmem with heq | ⟨reg, hreg, hid⟩
      · omega
      · have := hlt reg hreg; omega
    · intro hmem
      simp only [List.mem_map] at hmem
      obtain ⟨reg, hreg, hid⟩ := hmem
      have := hlt reg hreg; omega
  · intro reg hreg
    simp only [List.mem_cons] at hreg
    rcases hreg with rfl | rfl | hreg
    · rfl
    · rfl
    · have h2 := hrole reg hreg
      cases hr : reg.role with
      | reconnInterval =>
        rw [hr] at h2; rw [hInt] at h2; exact Option.noConfusion h2
      | reconnTimeout =>
        rw [hr] at h2; rw [hTO] at h2; exact Option.noConfusion h2
      | newIpInterval => rw [hr] at h2; exact h2
      | newIpTimeout => rw [hr] at h2; exact h2

theorem timerInv_startNewIpPolling (s : TimerState) (h : TimerInv s) :
    TimerInv (startNewIpPolling s) := by
  obtain ⟨hlt, hnd, hrole⟩ := timerInv_stopNewIpPolling s h
  have hInt : roleId (stopNewIpPolling s) .newIpInterval = none :=
    (stopNewIpPolling_ids s).1
  have hTO : roleId (stopNewIpPolling s) .newIpTimeout = none :=
    (stopNewIpPolling_ids s).2
  rw [startNewIpPolling_eq]
  refine ⟨?_, ?_, ?_⟩
  · intro reg hreg
    simp only [List.mem_cons] at hreg
    rcases hreg with rfl | rfl | hreg
    · show (stopNewIpPolling s).nextId + 1 < (stopNewIpPolling s).nextId + 1 + 1
      omega
    · show (stopNewIpPolling s).nextId < (stopNewIpPolling s).nextId + 1 + 1
      omega
    · have := hlt reg hreg
      show reg.id < (stopNewIpPolling s).nextId + 1 + 1
      omega
  · refine List.nodup_cons.mpr ⟨?_, List.nodup_cons.mpr ⟨?_, hnd⟩⟩
    · intro hmem
      simp only [List.map_cons, List.mem_cons, List.mem_map] at hmem
      rcases hmem with heq | ⟨reg, hreg, hid⟩
      · omega
      · have := hlt reg hreg; omega
    · intro hmem
      simp only [List.mem_map] at hmem
      obtain ⟨reg, hreg, hid⟩ := hmem
      have := hlt reg hreg; omega
  · intro reg hreg
    simp only [List.mem_cons] at hreg
    rcases hreg with rfl | rfl | hreg
    · rfl
    · rfl
    · have h2 := hrole reg hreg
      cases hr : reg.role with
      | newIpInterval =>
        rw [hr] at h2; rw [hInt] at h2; exact Option.noConfusion h2
      | newIpTimeout =>
        rw [hr] at h2; rw [hTO] at h2; exact Option.noConfusion h2
      | reconnInterval => rw [hr] at h2; exact h2
      | reconnTimeout => rw [hr] at h2; exact h2

/-- The number of live registrations created by a given start site. -/
def countRole (s : TimerState) (r : TimerRole) : Nat :=
  (s.active.filter (fun reg => reg.role == r)).length

theorem length_le_one_of_const_id {l : List TimerReg}
    (hnd : (l.map TimerReg.id).Nodup) (c : Nat) (hc : ∀ reg ∈ l, reg.id = c) :
    l.length ≤ 1 := by
  match l with
  | [] => simp
  | [a] => simp
  | a :: b :: rest =>
    exfalso
    have ha := hc a (by simp)
    have hb := hc b (by simp)
    have hne := (List.nodup_cons.mp hnd).1
    apply hne
    rw [List.map_cons]
    rw [show a.id = b.id from ha.trans hb.symm]
    exact List.mem_cons_self _ _

theorem countRole_le_one (s : TimerState) (hinv : TimerInv s) (r : TimerRole) :
    countRole s r ≤ 1 := by
  obtain ⟨-, hnd, hrole⟩ := hinv
  unfold countRole
  have hnd' : ((s.active.filter (fun reg => reg.role == r)).map TimerReg.id).Nodup :=
    List.Nodup.sublist ((List.filter_sublist _).map _) hnd
  cases hr : roleId s r with
  | some c =>
    apply length_le_one_of_const_id hnd' c
    intro reg hreg
    obtain ⟨hmem, hpred⟩ := List.mem_filter.mp hreg
    have hrr : reg.role = r := by simpa using hpred
    have h2 := hrole reg hmem
    rw [hrr, hr] at h2
    exact ((Option.some.injEq .. ▸ h2)).symm
  | none =>
    cases hl : s.active.filter (fun reg => reg.role == r) with
    | nil => simp
    | cons a tl =>
      exfalso
      have hmem : a ∈ s.active.filter (fun reg => reg.role == r) := by
        rw [hl]; exact List.mem_cons_self _ _
      obtain ⟨hmem', hpred⟩ := List.mem_filter.mp hmem
      have hrr : a.role = r := by simpa using hpred
      have h2 := hrole a hmem'
      rw [hrr, hr] at h2
      exact Option.noConfusion h2

/-- One call into the timer module API, as used by the watchers. -/
inductive TimerOp where
  | startReconn (isFactoryReset : Bool)
  | stopReconn
  | startNewIp
  | stopNewIp
deriving DecidableEq, Repr

/-- Apply one timer-module call. -/
def applyTimerOp (s : TimerState) : TimerOp → TimerState
  | .startReconn b => startReconnectionPolling b s
  | .stopReconn => stopReconnectionPolling s
  | .startNewIp => startNewIpPolling s
  | .stopNewIp => stopNewIpPolling s

/-- Apply a sequence of timer-module calls. -/
def runTimerOps (ops : List TimerOp) (s : TimerState) : TimerState :=
  ops.foldl applyTimerOp s

theorem timerInv_applyTimerOp (s : TimerState) (h : TimerInv s) (op : TimerOp) :
    TimerInv (applyTimerOp s op) := by
  cases op with
  | startReconn b => exact timerInv_startReconnectionPolling b s h
  | stopReconn => exact timerInv_stopReconnectionPolling s h
  | startNewIp => exact timerInv_startNewIpPolling s h
  | stopNewIp => exact timerInv_stopNewIpPolling s h

theorem timerInv_runTimerOps (ops : List TimerOp) :
    ∀ s : TimerState, TimerInv s → TimerInv (runTimerOps ops s) := by
  induction ops with
  | nil => intro s h; exact h
  | cons op rest ih =>
    intro s h
    exact ih (applyTimerOp s op) (timerInv_applyTimerOp s h op)

theorem timerInv_init : TimerInv initTimerState :=
  ⟨by simp [initTimerState], by simp [initTimerState], by simp [initTimerState]⟩

/-- C9: the two stop functions are idempotent (a second call leaves the state
of the first, with both ids null), each start function first performs the
corresponding stop, and along any sequence of start/stop calls from the
initial state at most one reconnection interval, one reconnection timeout,
one new-IP interval and one new-IP timeout are registered at any point. -/
theorem C9_stop_idempotent_and_single_registration :
    (∀ s : TimerState,
      stopReconnectionPolling (stopReconnectionPolling s) = stopReconnectionPolling s) ∧
    (∀ s : TimerState, stopNewIpPolling (stopNewIpPolling s) = stopNewIpPolling s) ∧
    (∀ (b : Bool) (s : TimerState),
      startReconnectionPolling b s
        = startReconnectionPolling b (stopReconnectionPolling s)) ∧
    (∀ s : TimerState, startNewIpPolling s = startNewIpPolling (stopNewIpPolling s)) ∧
    (∀ (ops : List TimerOp) (r : TimerRole),
      countRole (runTimerOps ops initTimerState) r ≤ 1) := by
  refine ⟨stopReconnectionPolling_idem, stopNewIpPolling_idem, ?_, ?_, ?_⟩
  · intro b s
    unfold startReconnectionPolling
    rw [stopReconnectionPolling_idem]
  · intro s
    unfold startNewIpPolling
    rw [stopNewIpPolling_idem]
  · intro ops r
    exact countRole_le_one _ (timerInv_runTimerOps ops initTimerState timerInv_init) r

/-! ## Device-operation and network-change state tags

The timer watchers and the application shell dispatch on the `type` tag of
the view model's `device_operation_state` / `network_change_state`.  The tag
sets are taken from the watcher code; the payload fields of the network
states (`newIp`, `uiPort`, `switchingToDhcp`) are modelled from the spec's
data model, since the generated shared types are produced by the Crux core
crate which is outside the frontend sources. -/

/-- The `type` tag of the device-operation state. -/
inductive DeviceOperationType where
  | idle
  | rebooting
  | factoryResetting
  | updating
  | waitingReconnection
  | reconnectionSuccessful
  | reconnectionFailed
deriving DecidableEq, Repr

/-- Modelled from the spec: the network-change state variant, with payloads
`WaitingForNewIp{newIp, uiPort, switchingToDhcp}`, `NewIpReachable{newIp}`
and `NewIpTimeout{newIp, uiPort}`; the tag set matches the watcher code. -/
inductive NetworkChangeState where
  | idle
  | waitingForNewIp (newIp uiPort : String) (switchingToDhcp : Bool)
  | newIpReachable (newIp : String)
  | newIpTimeout (newIp uiPort : String)
deriving DecidableEq, Repr

/-- Whether an (optional) network-change state has the `waiting_for_new_ip`
tag, as tested by the timer watcher. -/
def isWaitingForNewIp : Option NetworkChangeState → Bool
  | some (.waitingForNewIp ..) => true
  | _ => false

/-- `window.location` as read by the frontend: protocol (with trailing
colon), port (possibly empty) and full current address. -/
structure Location where
  protocol : String
  port : String
  href : String
deriving DecidableEq, Repr

/-- An effect the timer watcher asks the browser to perform. -/
inductive ShellEffect where
  | redirect (url : String)
deriving DecidableEq, Repr

/-- Device events the timer callbacks send into the core. -/
inductive DeviceEvent where
  | reconnectionCheckTick
  | reconnectionTimeout
  | newIpCheckTick
  | newIpCheckTimeout
deriving DecidableEq, Repr

/-- The `device_operation_state` watcher of the timer module: entering
`rebooting`/`factory_resetting`/`updating` starts reconnection polling
(factory reset selects the longer timeout); leaving one of those states or
`waiting_reconnection` into `idle`/`reconnection_successful`/
`reconnection_failed` stops it; any other transition is a no-op. -/
def deviceOperationTimerWatch (oldState newState : Option DeviceOperationType)
    (s : TimerState) : TimerState :=
  if newState = some .rebooting ∨ newState = some .factoryResetting ∨
      newState = some .updating then
    startReconnectionPolling (newState = some .factoryResetting) s
  else if (oldState = some .rebooting ∨ oldState = some .factoryResetting ∨
           oldState = some .updating ∨ oldState = some .waitingReconnection) ∧
          (newState = some .idle ∨ newState = some .reconnectionSuccessful ∨
           newState = some .reconnectionFailed) then
    stopReconnectionPolling s
  else
    s

/-- The `network_change_state` watcher of the timer module: entering
`waiting_for_new_ip` starts new-IP polling, leaving it stops new-IP polling;
entering `new_ip_reachable` additionally emits one redirect to
`protocol//newIp[:port]`. -/
def networkChangeTimerWatch (oldState newState : Option NetworkChangeState)
    (loc : Location) (s : TimerState) : TimerState × List ShellEffect :=
  let s1 :=
    if isWaitingForNewIp newState then startNewIpPolling s
    else if isWaitingForNewIp oldState then stopNewIpPolling s
    else s
  let effects :=
    match newState with
    | some (.newIpReachable ip) =>
        [ShellEffect.redirect
          (loc.protocol ++ "//" ++ ip ++ (if loc.port ≠ "" then ":" ++ loc.port else ""))]
    | _ => []
  (s1, effects)

/-- The reconnection timeout callback: send `ReconnectionTimeout` into the
core (only when the shell is initialized) and stop reconnection polling
unconditionally. -/
def reconnectionTimeoutFired (initialized : Bool) (s : TimerState) :
    TimerState × Option DeviceEvent :=
  (stopReconnectionPolling s, if initialized then some .reconnectionTimeout else none)

/-- The new-IP timeout callback: send `NewIpCheckTimeout` into the core
(only when the shell is initialized) and stop new-IP polling
unconditionally. -/
def newIpTimeoutFired (initialized : Bool) (s : TimerState) :
    TimerState × Option DeviceEvent :=
  (stopNewIpPolling s, if initialized then some .newIpCheckTimeout else none)

theorem deviceOperationTimerWatch_exit (dOld dNew : DeviceOperationType)
    (h1 : dOld = .rebooting ∨ dOld = .factoryResetting ∨ dOld = .updating ∨
          dOld = .waitingReconnection)
    (h2 : dNew = .idle ∨ dNew = .reconnectionSuccessful ∨ dNew = .reconnectionFailed)
    (s : TimerState) :
    deviceOperationTimerWatch (some dOld) (some dNew) s = stopReconnectionPolling s := by
  rcases h1 with rfl | rfl | rfl | rfl <;> rcases h2 with rfl | rfl | rfl <;>
    simp [deviceOperationTimerWatch]

theorem networkChangeTimerWatch_exit (nOld nNew : Option NetworkChangeState)
    (h1 : isWaitingForNewIp nOld = true) (h2 : isWaitingForNewIp nNew = false)
    (loc : Location) (s : TimerState) :
    (networkChangeTimerWatch nOld nNew loc s).1 = stopNewIpPolling s := by
  simp [networkChangeTimerWatch, h1, h2]

/-- C1: every transition of the device-operation state out of
{rebooting, factory_resetting, updating, waiting_reconnection} into
{idle, reconnection_successful, reconnection_failed} cancels both
reconnection timers and resets their ids to null; the reconnection timeout
callback itself also leaves both ids null; likewise every transition out of
`waiting_for_new_ip` cancels both new-IP timers (as does the new-IP timeout
callback). -/
theorem C1_timer_cancellation_on_state_exit
    (dOld dNew : DeviceOperationType) (nOld nNew : Option NetworkChangeState)
    (loc : Location) (s t u v : TimerState) (init1 init2 : Bool)
    (h1 : dOld = .rebooting ∨ dOld = .factoryResetting ∨ dOld = .updating ∨
          dOld = .waitingReconnection)
    (h2 : dNew = .idle ∨ dNew = .reconnectionSuccessful ∨ dNew = .reconnectionFailed)
    (h3 : isWaitingForNewIp nOld = true)
    (h4 : isWaitingForNewIp nNew = false) :
    (deviceOperationTimerWatch (some dOld) (some dNew) s = stopReconnectionPolling s ∧
     (deviceOperationTimerWatch (some dOld) (some dNew) s).reconnectionIntervalId = none ∧
     (deviceOperationTimerWatch (some dOld) (some dNew) s).reconnectionTimeoutId = none) ∧
    ((networkChangeTimerWatch nOld nNew loc t).1 = stopNewIpPolling t ∧
     (networkChangeTimerWatch nOld nNew loc t).1.newIpIntervalId = none ∧
     (networkChangeTimerWatch nOld nNew loc t).1.newIpTimeoutId = none) ∧
    ((reconnectionTimeoutFired init1 u).1.reconnectionIntervalId = none ∧
     (reconnectionTimeoutFired init1 u).1.reconnectionTimeoutId = none) ∧
    ((newIpTimeoutFired init2 v).1.newIpIntervalId = none ∧
     (newIpTimeoutFired init2 v).1.newIpTimeoutId = none) := by
  have hd := deviceOperationTimerWatch_exit dOld dNew h1 h2 s
  have hn := networkChangeTimerWatch_exit nOld nNew h3 h4 loc t
  refine ⟨⟨hd, ?_, ?_⟩, ⟨hn, ?_, ?_⟩, ⟨?_, ?_⟩, ⟨?_, ?_⟩⟩
  · rw [hd]; exact (stopReconnectionPolling_ids s).1
  · rw [hd]; exact (stopReconnectionPolling_ids s).2
  · rw [hn]; exact (stopNewIpPolling_ids t).1
  · rw [hn]; exact (stopNewIpPolling_ids t).2
  · exact (stopReconnectionPolling_ids u).1
  · exact (stopReconnectionPolling_ids u).2
  · exact (stopNewIpPolling_ids v).1
  · exact (stopNewIpPolling_ids v).2

/-- Witness for C1 at a concrete transition: leaving `rebooting` for `idle`
and leaving `waiting_for_new_ip` for `idle`, starting from the initial
timer state. -/
theorem C1_timer_cancellation_on_state_exit_witness :
    (deviceOperationTimerWatch (some .rebooting) (some .idle) initTimerState
        = stopReconnectionPolling initTimerState ∧
     (deviceOperationTimerWatch (some .rebooting) (some .idle)
        initTimerState).reconnectionIntervalId = none ∧
     (deviceOperationTimerWatch (some .rebooting) (some .idle)
        initTimerState).reconnectionTimeoutId = none) ∧
    ((networkChangeTimerWatch (some (.waitingForNewIp "10.0.0.7" "1977" false))
        (some .idle) ⟨"https:", "1977", "https://10.0.0.1:1977/"⟩ initTimerState).1
        = stopNewIpPolling initTimerState ∧
     (networkChangeTimerWatch (some (.waitingForNewIp "10.0.0.7" "1977" false))
        (some .idle) ⟨"https:", "1977", "https://10.0.0.1:1977/"⟩
        initTimerState).1.newIpIntervalId = none ∧
     (networkChangeTimerWatch (some (.waitingForNewIp "10.0.0.7" "1977" false))
        (some .idle) ⟨"https:", "1977", "https://10.0.0.1:1977/"⟩
        initTimerState).1.newIpTimeoutId = none) ∧
    ((reconnectionTimeoutFired true initTimerState).1.reconnectionIntervalId = none ∧
     (reconnectionTimeoutFired true initTimerState).1.reconnectionTimeoutId = none) ∧
    ((newIpTimeoutFired true initTimerState).1.newIpIntervalId = none ∧
     (newIpTimeoutFired true initTimerState).1.newIpTimeoutId = none) :=
  C1_timer_cancellation_on_state_exit .rebooting .idle
    (some (.waitingForNewIp "10.0.0.7" "1977" false)) (some .idle)
    ⟨"https:", "1977", "https://10.0.0.1:1977/"⟩
    initTimerState initTimerState initTimerState initTimerState true true
    (Or.inl rfl) (Or.inl rfl) (by decide) (by decide)

/-- C4: the timer constants are exactly 5000 / 300000 / 600000 / 5000 /
90000 ms, and each start function registers the polling interval at the poll
period and one one-shot timeout at the kind-specific deadline (factory reset
selecting the longer reconnection deadline). -/
theorem C4_timer_constants_and_schedules :
    RECONNECTION_POLL_INTERVAL_MS = 5000 ∧ REBOOT_TIMEOUT_MS = 300000 ∧
    FACTORY_RESET_TIMEOUT_MS = 600000 ∧ NEW_IP_POLL_INTERVAL_MS = 5000 ∧
    NEW_IP_TIMEOUT_MS = 90000 ∧
    (∀ (isFactoryReset : Bool) (s : TimerState),
      (startReconnectionPolling isFactoryReset s).reconnectionIntervalId
          = some (stopReconnectionPolling s).nextId ∧
      (startReconnectionPolling isFactoryReset s).reconnectionTimeoutId
          = some ((stopReconnectionPolling s).nextId + 1) ∧
      (⟨(stopReconnectionPolling s).nextId, .reconnInterval,
          RECONNECTION_POLL_INTERVAL_MS, true⟩ : TimerReg)
          ∈ (startReconnectionPolling isFactoryReset s).active ∧
      (⟨(stopReconnectionPolling s).nextId + 1, .reconnTimeout,
          if isFactoryReset then FACTORY_RESET_TIMEOUT_MS else REBOOT_TIMEOUT_MS,
          false⟩ : TimerReg)
          ∈ (startReconnectionPolling isFactoryReset s).active) ∧
    (∀ s : TimerState,
      (startNewIpPolling s).newIpIntervalId = some (stopNewIpPolling s).nextId ∧
      (startNewIpPolling s).newIpTimeoutId = some ((stopNewIpPolling s).nextId + 1) ∧
      (⟨(stopNewIpPolling s).nextId, .newIpInterval, NEW_IP_POLL_INTERVAL_MS, true⟩ :
          TimerReg) ∈ (startNewIpPolling s).active ∧
      (⟨(stopNewIpPolling s).nextId + 1, .newIpTimeout, NEW_IP_TIMEOUT_MS, false⟩ :
          TimerReg) ∈ (startNewIpPolling s).active) := by
  refine ⟨rfl, rfl, rfl, rfl, rfl, ?_, ?_⟩
  · intro isFactoryReset s
    refine ⟨rfl, rfl, ?_, ?_⟩ <;>
      simp [startReconnectionPolling, scheduleTimer, List.mem_cons]
  · intro s
    refine ⟨rfl, rfl, ?_, ?_⟩ <;>
      simp [startNewIpPolling, scheduleTimer, List.mem_cons]

/-- C7: on every transition into `new_ip_reachable{new_ip}` the watcher emits
exactly one redirect, to `protocol//newIp[:port]`, and the new-IP timers are
stopped exactly when the previous state was `waiting_for_new_ip` (otherwise
the timer state is untouched). -/
theorem C7_new_ip_reachable_redirect
    (oldState : Option NetworkChangeState) (ip : String) (loc : Location)
    (s : TimerState) :
    networkChangeTimerWatch oldState (some (.newIpReachable ip)) loc s
      = ((if isWaitingForNewIp oldState then stopNewIpPolling s else s),
         [ShellEffect.redirect
            (loc.protocol ++ "//" ++ ip ++
              (if loc.port ≠ "" then ":" ++ loc.port else ""))]) := by
  have hr : isWaitingForNewIp (some (.newIpReachable ip)) = false := rfl
  cases h : isWaitingForNewIp oldState <;> simp [networkChangeTimerWatch, h, hr]

/-! ## Application shell (App.vue)

The overlay spinner's manual redirect URL and the update-validation
notification condition. -/

/-- JavaScript `'newIp' in networkState ? networkState.newIp : undefined`. -/
def NetworkChangeState.newIpField : NetworkChangeState → Option String
  | .idle => none
  | .waitingForNewIp ip _ _ => some ip
  | .newIpReachable ip => some ip
  | .newIpTimeout ip _ => some ip

/-- JavaScript `'uiPort' in networkState ? networkState.uiPort : undefined`. -/
def NetworkChangeState.uiPortField : NetworkChangeState → Option String
  | .waitingForNewIp _ p _ => some p
  | .newIpTimeout _ p => some p
  | _ => none

/-- JavaScript `'switchingToDhcp' in networkState ? ... : undefined`; only the
waiting state carries the flag. -/
def NetworkChangeState.switchingToDhcpField : NetworkChangeState → Option Bool
  | .waitingForNewIp _ _ d => some d
  | _ => none

/-- Tag test `networkState.type === 'waitingForNewIp'`. -/
def NetworkChangeState.isWaitingTag : NetworkChangeState → Bool
  | .waitingForNewIp .. => true
  | _ => false

/-- Tag test `networkState.type === 'newIpTimeout'`. -/
def NetworkChangeState.isTimeoutTag : NetworkChangeState → Bool
  | .newIpTimeout .. => true
  | _ => false

/-- The `redirectUrl` computed value of the application shell: a network
change in the waiting or timeout state with known `newIp`/`uiPort` and not a
switch to DHCP yields `https://newIp:uiPort`; otherwise a failed device
reconnection yields the current page address; otherwise undefined. -/
def redirectUrl (net : NetworkChangeState) (dev : DeviceOperationType)
    (loc : Location) : Option String :=
  if (net.isWaitingTag || net.isTimeoutTag) && net.newIpField.isSome &&
      net.uiPortField.isSome && !(net.switchingToDhcpField.getD false) then
    some ("https://" ++ net.newIpField.getD "" ++ ":" ++ net.uiPortField.getD "")
  else if dev = .reconnectionFailed then
    some loc.href
  else
    none

/-- Counterexample for C10: with the network change waiting on a reachable
static address and the device-operation state simultaneously
`reconnectionFailed`, the redirect URL is the new-address URL, not the
current page address as the claim states for every `reconnectionFailed`
state. -/
theorem C10_counterexample :
    redirectUrl (.waitingForNewIp "10.1.2.3" "1977" false) .reconnectionFailed
        ⟨"https:", "1977", "https://192.168.7.1:1977/"⟩
      = some "https://10.1.2.3:1977" ∧
    redirectUrl (.waitingForNewIp "10.1.2.3" "1977" false) .reconnectionFailed
        ⟨"https:", "1977", "https://192.168.7.1:1977/"⟩
      ≠ some (Location.href ⟨"https:", "1977", "https://192.168.7.1:1977/"⟩) := by
  constructor
  · rfl
  · decide

/-- C10 (amended): the manual redirect URL is `https://newIp:uiPort` for
`waitingForNewIp` with `switchingToDhcp` false and for `newIpTimeout`
(which carries no DHCP flag), taking precedence over the device-operation
state; when no network-change URL applies, it is the current page address
exactly when the device-operation state is `reconnectionFailed`, and
undefined otherwise — in particular a static-to-DHCP change in the waiting
state never offers a redirect URL. -/
theorem C10_redirect_url_cases (ip port : String) (dev : DeviceOperationType)
    (loc : Location) :
    redirectUrl (.waitingForNewIp ip port false) dev loc
      = some ("https://" ++ ip ++ ":" ++ port) ∧
    redirectUrl (.newIpTimeout ip port) dev loc
      = some ("https://" ++ ip ++ ":" ++ port) ∧
    redirectUrl (.waitingForNewIp ip port true) dev loc
      = (if dev = .reconnectionFailed then some loc.href else none) ∧
    redirectUrl .idle dev loc
      = (if dev = .reconnectionFailed then some loc.href else none) ∧
    redirectUrl (.newIpReachable ip) dev loc
      = (if dev = .reconnectionFailed then some loc.href else none) := by
  refine ⟨?_, ?_, ?_, ?_, ?_⟩ <;>
    simp [redirectUrl, NetworkChangeState.isWaitingTag, NetworkChangeState.isTimeoutTag,
      NetworkChangeState.newIpField, NetworkChangeState.uiPortField,
      NetworkChangeState.switchingToDhcpField]

/-- The update-validation watcher condition of the application shell: show
iff the status is `Succeeded` or `Recovered` and the notification is not
acknowledged, where the acknowledged bit is the live healthcheck value when
present (`??`), falling back to the `onMounted` snapshot. -/
def updateValidationShouldShow (status : Option String) (ackedLive : Option Bool)
    (ackedOnMount : Bool) : Bool :=
  ((status == some "Succeeded") || (status == some "Recovered")) &&
    !(ackedLive.getD ackedOnMount)

/-- Modelled from the spec: the acknowledgement tracker contract
`shouldShow = eventIndicatesUnacked AND NOT sessionHasAcked`, where the
session-acked bit prefers the most recently observed live signal over the
startup snapshot whenever the live signal exists. -/
def trackerShouldShowUpdateValidation (status : Option String)
    (ackedLive : Option Bool) (ackedOnMount : Bool) : Bool :=
  let eventIndicatesUnacked :=
    (status == some "Succeeded") || (status == some "Recovered")
  let sessionHasAcked :=
    match ackedLive with
    | some live => live
    | none => ackedOnMount
  eventIndicatesUnacked && !sessionHasAcked

/-- C5: the shell's notification condition coincides with the tracker
contract: live healthcheck acked bit takes precedence whenever present (the
startup snapshot is then irrelevant), and the snapshot is consulted exactly
when the live value is undefined. -/
theorem C5_update_validation_notification (status : Option String)
    (ackedLive : Option Bool) (m m1 m2 : Bool) (b : Bool) :
    updateValidationShouldShow status ackedLive m
      = trackerShouldShowUpdateValidation status ackedLive m ∧
    updateValidationShouldShow status (some b) m1
      = updateValidationShouldShow status (some b) m2 ∧
    updateValidationShouldShow status none m
      = (((status == some "Succeeded") || (status == some "Recovered")) && !m) := by
  refine ⟨?_, ?_, ?_⟩ <;>
    cases ackedLive <;>
      simp [updateValidationShouldShow, trackerShouldShowUpdateValidation]

/-! ## Device actions (DeviceActions.vue)

Error handling for the reboot and factory-reset requests. -/

/-- The single action a fetch-error handler performs. -/
inductive FetchErrorAction where
  | navigate (path : String)
  | snackbarError (msg : String)
deriving DecidableEq, Repr

/-- `onRebootError`: navigate to the login route on 401, otherwise show the
error snackbar. -/
def onRebootError (statusCode : Option Nat) (errText : String) : FetchErrorAction :=
  if statusCode = some 401 then .navigate "/login"
  else .snackbarError ("Rebooting device failed: " ++ errText)

/-- `onResetError`: navigate to the login route on 401, otherwise show the
error snackbar. -/
def onResetError (statusCode : Option Nat) (errText : String) : FetchErrorAction :=
  if statusCode = some 401 then .navigate "/login"
  else .snackbarError ("Resetting device failed: " ++ errText)

/-- C8: a failed reboot or factory-reset request with status 401 navigates to
the login route and shows no error; any other failure status shows the error
snackbar and performs no navigation. -/
theorem C8_device_action_401_handling (code : Option Nat) (e : String)
    (h : code ≠ some 401) :
    onRebootError (some 401) e = .navigate "/login" ∧
    onResetError (some 401) e = .navigate "/login" ∧
    onRebootError code e = .snackbarError ("Rebooting device failed: " ++ e) ∧
    onResetError code e = .snackbarError ("Resetting device failed: " ++ e) := by
  refine ⟨rfl, rfl, ?_, ?_⟩ <;> simp [onRebootError, onResetError, h]

/-- Witness for C8 at the concrete failure status 500. -/
theorem C8_device_action_401_handling_witness :
    onRebootError (some 401) "boom" = .navigate "/login" ∧
    onResetError (some 401) "boom" = .navigate "/login" ∧
    onRebootError (some 500) "boom"
      = .snackbarError ("Rebooting device failed: " ++ "boom") ∧
    onResetError (some 500) "boom"
      = .snackbarError ("Resetting device failed: " ++ "boom") :=
  C8_device_action_401_handling (some 500) "boom" (by decide)

/-! ## Network settings form

Two component variants exist: the legacy one syncs its local fields from the
pushed adapter data, guarded by the core's dirty flag; the Core-backed one
syncs from the core's `networkFormState`, also guarded by the dirty flag. -/

/-- One IPv4 address entry of an adapter. -/
structure Ipv4Addr where
  addr : String
  dhcp : Bool
  prefixLen : Nat
deriving DecidableEq, Repr

/-- The IPv4 block of an adapter. -/
structure Ipv4Info where
  addrs : List Ipv4Addr
  dns : List String
  gateways : List String
deriving DecidableEq, Repr

/-- A network adapter as pushed over the WebSocket / held in the props. -/
structure DeviceNetwork where
  name : String
  mac : String
  online : Bool
  ipv4 : Option Ipv4Info
deriving DecidableEq, Repr

/-- `adapter.ipv4?.addrs[0]`. -/
def firstAddr (a : DeviceNetwork) : Option Ipv4Addr :=
  a.ipv4.bind (fun v => v.addrs.head?)

/-- The local form fields of the legacy network settings component. -/
structure NetFormFields where
  ipAddress : String
  dns : String
  gateways : String
  addressAssignment : String
  netmask : Nat
deriving DecidableEq, Repr

/-- Populate the local fields from an adapter, as the WebSocket watcher does
(`|| ""` for the strings, `|| 24` for the prefix length, `dhcp`/`static`
from the first address's DHCP flag). -/
def syncFromAdapter (a : DeviceNetwork) : NetFormFields :=
  { ipAddress := ((firstAddr a).map Ipv4Addr.addr).getD ""
    dns := String.intercalate "\n" ((a.ipv4.map Ipv4Info.dns).getD [])
    gateways := String.intercalate "\n" ((a.ipv4.map Ipv4Info.gateways).getD [])
    addressAssignment :=
      if ((firstAddr a).map Ipv4Addr.dhcp).getD false then "dhcp" else "static"
    netmask :=
      match (firstAddr a).map Ipv4Addr.prefixLen with
      | some n => if n = 0 then 24 else n
      | none => 24 }

/-- The `props.networkAdapter` watcher of the legacy component: skip when the
adapter is missing, when a submit is in flight, or when the core reports the
form dirty; otherwise sync the local fields from the pushed adapter. -/
def adapterWatchStep (dirty isSubmitting : Bool) (fields : NetFormFields) :
    Option DeviceNetwork → NetFormFields
  | none => fields
  | some a =>
      if isSubmitting then fields
      else if dirty then fields
      else syncFromAdapter a

/-- Component state of the legacy network settings form.  The dirty flag is
owned by the Crux core; its dynamics (set by a user edit that changes a
field, cleared by discard or successful submit) are modelled from the
spec. -/
structure NetworkSettingsModel where
  fields : NetFormFields
  dirty : Bool
  isSubmitting : Bool
  adapter : DeviceNetwork
deriving DecidableEq, Repr

/-- An event hitting the network settings form. -/
inductive NetworkFormEvent where
  | adapterPush (a : DeviceNetwork)
  | userEdit (f : NetFormFields)
  | discard
  | submitSuccess
deriving DecidableEq, Repr

/-- Whether the event is externally sourced (a WebSocket/Core push). -/
def NetworkFormEvent.isExternal : NetworkFormEvent → Bool
  | .adapterPush _ => true
  | _ => false

/-- One step of the legacy component: adapter pushes go through the guarded
watcher; user edits set the fields and mark the form dirty (modelled from
the spec); discard restores from the last known adapter and clears the dirty
flag; a successful submit clears the dirty flag. -/
def networkSettingsStep (s : NetworkSettingsModel) :
    NetworkFormEvent → NetworkSettingsModel
  | .adapterPush a =>
      { s with
          adapter := a
          fields := adapterWatchStep s.dirty s.isSubmitting s.fields (some a) }
  | .userEdit f => { s with fields := f, dirty := true }
  | .discard => { s with fields := syncFromAdapter s.adapter, dirty := false }
  | .submitSuccess => { s with dirty := false, isSubmitting := false }

/-- Modelled from the spec: the form data held by the core's
`networkFormState` while editing. -/
structure CoreFormData where
  ipAddress : String
  dhcp : Bool
  subnetMask : String
  dns : List String
  gateways : List String
deriving DecidableEq, Repr

/-- Modelled from the spec: the core's network-form state variant
`NotEditing | Editing{adapterName, formData} | Submitting`. -/
inductive NetworkFormState where
  | notEditing
  | editing (adapterName : String) (formData : CoreFormData)
  | submitting
deriving DecidableEq, Repr

/-- The local form fields of the Core-backed network settings component. -/
structure LocalFormFields where
  ipAddress : String
  dns : String
  gateways : String
  addressAssignment : String
  subnetMask : String
deriving DecidableEq, Repr

/-- `syncLocalFieldsFromCore`: replace every local field from the core's
form data. -/
def syncLocalFieldsFromCore (d : CoreFormData) : LocalFormFields :=
  { ipAddress := d.ipAddress
    dns := String.intercalate "\n" d.dns
    gateways := String.intercalate "\n" d.gateways
    addressAssignment := if d.dhcp then "dhcp" else "static"
    subnetMask := d.subnetMask }

/-- The `networkFormState` watcher of the Core-backed component: sync the
local fields from the core only while editing this adapter and only when the
core does not report the form dirty. -/
def networkFormStateWatch (dirty : Bool) (st : NetworkFormState)
    (adapterName : String) (fields : LocalFormFields) : LocalFormFields :=
  match st with
  | .editing nm d =>
      if nm = adapterName then
        if dirty then fields else syncLocalFieldsFromCore d
      else fields
  | _ => fields

theorem networkSettingsStep_external (s : NetworkSettingsModel)
    (e : NetworkFormEvent) (hd : s.dirty = true) (he : e.isExternal = true) :
    (networkSettingsStep s e).fields = s.fields ∧
    (networkSettingsStep s e).dirty = true := by
  cases e with
  | adapterPush a =>
    refine ⟨?_, hd⟩
    show adapterWatchStep s.dirty s.isSubmitting s.fields (some a) = s.fields
    rw [hd]
    cases s.isSubmitting <;> simp [adapterWatchStep]
  | userEdit f => exact Bool.noConfusion he
  | discard => exact Bool.noConfusion he
  | submitSuccess => exact Bool.noConfusion he

theorem networkSettings_foldl_external (es : List NetworkFormEvent) :
    ∀ s : NetworkSettingsModel, s.dirty = true →
      (∀ e ∈ es, e.isExternal = true) →
      (es.foldl networkSettingsStep s).fields = s.fields ∧
      (es.foldl networkSettingsStep s).dirty = true := by
  induction es with
  | nil => intro s hd _; exact ⟨rfl, hd⟩
  | cons e rest ih =>
    intro s hd hext
    have he := hext e (List.mem_cons_self _ _)
    have hstep := networkSettingsStep_external s e hd he
    have hrest := ih (networkSettingsStep s e) hstep.2
      (fun x hx => hext x (List.mem_cons_of_mem _ hx))
    exact ⟨hrest.1.trans hstep.1, hrest.2⟩

/-- C2: once the form's dirty flag is set, no externally-sourced update (any
sequence of adapter pushes, in either component variant a core form-state
sync) changes any local field value; only user edits, discard or a
successful submit touch them. -/
theorem C2_dirty_blocks_external_updates (s : NetworkSettingsModel)
    (es : List NetworkFormEvent) (dirty : Bool) (st : NetworkFormState)
    (nm : String) (fs : LocalFormFields)
    (h1 : s.dirty = true)
    (h2 : ∀ e ∈ es, e.isExternal = true)
    (h3 : dirty = true) :
    (es.foldl networkSettingsStep s).fields = s.fields ∧
    (es.foldl networkSettingsStep s).dirty = true ∧
    networkFormStateWatch dirty st nm fs = fs := by
  have h := networkSettings_foldl_external es s h1 h2
  refine ⟨h.1, h.2, ?_⟩
  cases st <;> simp [networkFormStateWatch, h3]

/-- Witness for C2: a dirty form hit by two adapter pushes keeps its edited
field values, and the Core-backed watcher is a no-op while dirty. -/
theorem C2_dirty_blocks_external_updates_witness :
    ([NetworkFormEvent.adapterPush
          ⟨"eth0", "aa:bb:cc", true, some ⟨[⟨"192.168.0.50", false, 24⟩], [], []⟩⟩,
        NetworkFormEvent.adapterPush
          ⟨"eth0", "aa:bb:cc", true, some ⟨[⟨"10.0.0.8", true, 16⟩], [], []⟩⟩].foldl
        networkSettingsStep
        ⟨⟨"192.168.0.99", "", "", "static", 24⟩, true, false,
          ⟨"eth0", "aa:bb:cc", true, some ⟨[⟨"192.168.0.1", false, 24⟩], [], []⟩⟩⟩).fields
      = ⟨"192.168.0.99", "", "", "static", 24⟩ ∧
    ([NetworkFormEvent.adapterPush
          ⟨"eth0", "aa:bb:cc", true, some ⟨[⟨"192.168.0.50", false, 24⟩], [], []⟩⟩,
        NetworkFormEvent.adapterPush
          ⟨"eth0", "aa:bb:cc", true, some ⟨[⟨"10.0.0.8", true, 16⟩], [], []⟩⟩].foldl
        networkSettingsStep
        ⟨⟨"192.168.0.99", "", "", "static", 24⟩, true, false,
          ⟨"eth0", "aa:bb:cc", true, some ⟨[⟨"192.168.0.1", false, 24⟩], [], []⟩⟩⟩).dirty
      = true ∧
    networkFormStateWatch true
        (.editing "eth0" ⟨"172.16.0.2", false, "255.255.0.0", [], []⟩) "eth0"
        ⟨"192.168.0.99", "", "", "static", "255.255.255.0"⟩
      = ⟨"192.168.0.99", "", "", "static", "255.255.255.0"⟩ :=
  C2_dirty_blocks_external_updates
    ⟨⟨"192.168.0.99", "", "", "static", 24⟩, true, false,
      ⟨"eth0", "aa:bb:cc", true, some ⟨[⟨"192.168.0.1", false, 24⟩], [], []⟩⟩⟩
    [NetworkFormEvent.adapterPush
        ⟨"eth0", "aa:bb:cc", true, some ⟨[⟨"192.168.0.50", false, 24⟩], [], []⟩⟩,
      NetworkFormEvent.adapterPush
        ⟨"eth0", "aa:bb:cc", true, some ⟨[⟨"10.0.0.8", true, 16⟩], [], []⟩⟩]
    true (.editing "eth0" ⟨"172.16.0.2", false, "255.255.0.0", [], []⟩) "eth0"
    ⟨"192.168.0.99", "", "", "static", "255.255.255.0"⟩
    rfl (by decide) rfl

/-! ## Rollback default and submit flow (Core-backed network settings) -/

/-- Modelled from the spec: the core's `defaultRollbackEnabled` for a change
on the currently connected adapter — disabled exactly when the change
switches from static to DHCP, enabled when switching to or keeping a static
address. -/
def defaultRollbackEnabled (previousDhcp newDhcp : Bool) : Bool :=
  !(!previousDhcp && newDhcp)

/-- The `shouldShowRollbackModal` watcher: when the modal is to be shown, the
checkbox is initialized from the core's default; otherwise it keeps its
current value. -/
def rollbackModalWatch (shouldShow coreDefault enableRollback : Bool) : Bool :=
  if shouldShow then coreDefault else enableRollback

/-- C3: when the rollback modal is shown, the checkbox default is disabled
for a static-to-DHCP switch and enabled for DHCP-to-static or for keeping a
static address (same or different IP). -/
theorem C3_rollback_default (e : Bool) :
    rollbackModalWatch true (defaultRollbackEnabled false true) e = false ∧
    rollbackModalWatch true (defaultRollbackEnabled true false) e = true ∧
    rollbackModalWatch true (defaultRollbackEnabled false false) e = true := by
  refine ⟨rfl, rfl, rfl⟩

/-- The `NetworkConfigRequest` constructed by `submitNetworkConfig`. -/
structure NetworkConfigRequest where
  isCurrentConnection : Bool
  ipChanged : Bool
  name : String
  dhcp : Bool
  ip : Option String
  previousIp : Option String
  netmask : Option String
  gateways : List String
  dns : List String
  rollback : Option Bool
  switchingToDhcp : Bool
deriving DecidableEq, Repr

/-- `value.split("\n").filter(x => x.trim())`. -/
def splitLines (s : String) : List String :=
  (s.splitOn "\n").filter (fun x => x.trim ≠ "")

/-- JavaScript `s || null` on a string. -/
def strOrNone (s : String) : Option String :=
  if s = "" then none else some s

/-- Build the configuration request exactly as `submitNetworkConfig` does:
the rollback field is the checkbox value when `includeRollback` and `null`
otherwise; `switchingToDhcp` is true when the adapter is currently non-DHCP
and the form selects DHCP. -/
def buildNetworkConfigRequest (includeRollback : Bool) (fields : LocalFormFields)
    (enableRollback : Bool) (adapter : DeviceNetwork) (isCurrentConnection : Bool) :
    NetworkConfigRequest :=
  { isCurrentConnection := isCurrentConnection
    ipChanged := ((firstAddr adapter).map Ipv4Addr.addr) != some fields.ipAddress
    name := adapter.name
    dhcp := fields.addressAssignment == "dhcp"
    ip := strOrNone fields.ipAddress
    previousIp := ((firstAddr adapter).map Ipv4Addr.addr).bind strOrNone
    netmask := none
    gateways := splitLines fields.gateways
    dns := splitLines fields.dns
    rollback := if includeRollback then some enableRollback else none
    switchingToDhcp :=
      !(((firstAddr adapter).map Ipv4Addr.dhcp).getD false) &&
        (fields.addressAssignment == "dhcp") }

/-- What a submit-path call does: open the confirmation modal or send the
configuration request. -/
inductive SubmitEffect where
  | openModal
  | sendConfig (cfg : NetworkConfigRequest)
deriving DecidableEq, Repr

/-- The configuration request sent by an effect, if any. -/
def SubmitEffect.sentConfig : SubmitEffect → Option NetworkConfigRequest
  | .openModal => none
  | .sendConfig cfg => some cfg

/-- The form's `submit` handler: when the core requires a rollback decision
(`shouldShowRollbackModal`), open the confirmation modal; otherwise send the
request without a rollback value. -/
def submitAction (rollbackRequired : Bool) (fields : LocalFormFields)
    (enableRollback : Bool) (adapter : DeviceNetwork) (icc : Bool) : SubmitEffect :=
  if rollbackRequired then .openModal
  else .sendConfig (buildNetworkConfigRequest false fields enableRollback adapter icc)

/-- The modal's Apply Changes button: send the request including the rollback
checkbox value. -/
def confirmRollbackModal (fields : LocalFormFields) (enableRollback : Bool)
    (adapter : DeviceNetwork) (icc : Bool) : SubmitEffect :=
  .sendConfig (buildNetworkConfigRequest true fields enableRollback adapter icc)

/-- C6: when a rollback decision is required, submitting opens the modal and
sends nothing; a non-null rollback value is sent only by the modal's explicit
confirmation; when no decision is required, the request is sent with a null
rollback field. -/
theorem C6_rollback_modal_gates_submit (fields : LocalFormFields) (er : Bool)
    (adapter : DeviceNetwork) (icc : Bool) :
    submitAction true fields er adapter icc = .openModal ∧
    (submitAction true fields er adapter icc).sentConfig = none ∧
    (submitAction false fields er adapter icc).sentConfig
      = some (buildNetworkConfigRequest false fields er adapter icc) ∧
    (buildNetworkConfigRequest false fields er adapter icc).rollback = none ∧
    (confirmRollbackModal fields er adapter icc).sentConfig
      = some (buildNetworkConfigRequest true fields er adapter icc) ∧
    (buildNetworkConfigRequest true fields er adapter icc).rollback = some er :=
  ⟨rfl, rfl, rfl, rfl, rfl, rfl⟩

end OmnectUI
